import Mathlib

/-!
Verification of the istio pilot xDS push/ACK coordination engine against its
natural-language specification.

The development contains two kinds of definitions:
* shallow embeddings of code present in the repository excerpt
  (`getResourceVersion` from the debug handlers, `getFilterChainMatchOptions`
  and the filter-chain match tables from
  `pilot/pkg/networking/core/v1alpha3/filterchain_options.go`);
* models of the push/ACK engine itself (flow control, the ACK/NACK state
  machine, the push orchestrator), whose implementation is not part of the
  excerpt (only its tests in `pilot/pkg/xds/ads_test.go` are); these are
  modelled from the specification, as stated in their doc comments.
-/

namespace IstioXds

/-! ## Filter chain match options (`filterchain_options.go`) -/

/-- Listener protocols (`networking.ListenerProtocol`): HTTP proxy, TCP proxy,
automatic protocol detection, or unknown. -/
inductive ListenerProtocol where
  | http
  | tcp
  | auto
  | unknown
deriving DecidableEq, Repr

/-- Mutual TLS modes (`model.MutualTLSMode`): unknown, disabled, permissive
(both mTLS and plain text accepted) and strict (mTLS only). -/
inductive MutualTLSMode where
  | unknown
  | disable
  | permissive
  | strict
deriving DecidableEq, Repr

/-- Modelled from the spec: `plugin.MTLSSettings`, of which
`getFilterChainMatchOptions` consults only the mTLS mode. -/
structure MTLSSettings where
  mode : MutualTLSMode
deriving DecidableEq, Repr

/-- `xdsfilters.TLSTransportProtocol`: the transport protocol set by the TLS
inspector for TLS connections ("tls" per the source comment on
`FilterChainMatchOptions.TransportProtocol`). -/
def TLSTransportProtocol : String := "tls"

/-- `xdsfilters.RawBufferTransportProtocol`: the transport protocol of plain
text connections. -/
def RawBufferTransportProtocol : String := "raw_buffer"

/-- Modelled from the spec: ALPN list for mTLS HTTP traffic (`mtlsHTTPALPNs`),
referenced by the filter-chain tables but defined outside the excerpt. -/
def mtlsHTTPALPNs : List String := ["istio-http/1.0", "istio-http/1.1", "istio-h2"]

/-- Modelled from the spec: ALPN list for plain text HTTP traffic
(`plaintextHTTPALPNs`), defined outside the excerpt. -/
def plaintextHTTPALPNs : List String := ["http/1.0", "http/1.1", "h2c"]

/-- Modelled from the spec: ALPN list for mTLS TCP traffic with metadata
exchange (`mtlsTCPWithMxcALPNs`), defined outside the excerpt. -/
def mtlsTCPWithMxcALPNs : List String := ["istio-peer-exchange", "istio"]

/-- Modelled from the spec: all istio mTLS ALPN values (`allIstioMtlsALPNs`),
defined outside the excerpt. -/
def allIstioMtlsALPNs : List String :=
  ["istio", "istio-peer-exchange", "istio-http/1.0", "istio-http/1.1", "istio-h2"]

/-- `FilterChainMatchOptions` describes options used for filter chain matches.
Field defaults are the Go zero values of the omitted composite-literal fields. -/
structure FilterChainMatchOptions where
  applicationProtocols : List String := []
  transportProtocol : String := ""
  protocol : ListenerProtocol
  mtls : Bool := false
deriving DecidableEq, Repr

/-- `inboundPermissiveFilterChainMatchWithMxcOptions`. -/
def inboundPermissiveFilterChainMatchWithMxcOptions : List FilterChainMatchOptions :=
  [ { applicationProtocols := mtlsHTTPALPNs
      transportProtocol := TLSTransportProtocol
      protocol := .http
      mtls := true },
    { applicationProtocols := plaintextHTTPALPNs
      protocol := .http
      transportProtocol := RawBufferTransportProtocol },
    { applicationProtocols := mtlsTCPWithMxcALPNs
      transportProtocol := TLSTransportProtocol
      protocol := .tcp
      mtls := true },
    { protocol := .tcp
      transportProtocol := RawBufferTransportProtocol },
    { transportProtocol := TLSTransportProtocol
      protocol := .tcp } ]

/-- `inboundPermissiveHTTPFilterChainMatchWithMxcOptions`. -/
def inboundPermissiveHTTPFilterChainMatchWithMxcOptions : List FilterChainMatchOptions :=
  [ { applicationProtocols := allIstioMtlsALPNs
      transportProtocol := TLSTransportProtocol
      protocol := .http
      mtls := true },
    { protocol := .http
      transportProtocol := RawBufferTransportProtocol } ]

/-- `inboundPermissiveTCPFilterChainMatchWithMxcOptions`. -/
def inboundPermissiveTCPFilterChainMatchWithMxcOptions : List FilterChainMatchOptions :=
  [ { applicationProtocols := allIstioMtlsALPNs
      transportProtocol := TLSTransportProtocol
      protocol := .tcp
      mtls := true },
    { transportProtocol := TLSTransportProtocol
      protocol := .tcp },
    { protocol := .tcp
      transportProtocol := RawBufferTransportProtocol } ]

/-- `inboundStrictFilterChainMatchOptions`. -/
def inboundStrictFilterChainMatchOptions : List FilterChainMatchOptions :=
  [ { applicationProtocols := mtlsHTTPALPNs
      protocol := .http
      transportProtocol := TLSTransportProtocol
      mtls := true },
    { protocol := .tcp
      transportProtocol := TLSTransportProtocol
      mtls := true } ]

/-- `inboundStrictTCPFilterChainMatchOptions`. -/
def inboundStrictTCPFilterChainMatchOptions : List FilterChainMatchOptions :=
  [ { protocol := .tcp
      transportProtocol := TLSTransportProtocol
      mtls := true } ]

/-- `inboundStrictHTTPFilterChainMatchOptions`. -/
def inboundStrictHTTPFilterChainMatchOptions : List FilterChainMatchOptions :=
  [ { protocol := .http
      transportProtocol := TLSTransportProtocol
      mtls := true } ]

/-- `inboundPlainTextFilterChainMatchOptions`. -/
def inboundPlainTextFilterChainMatchOptions : List FilterChainMatchOptions :=
  [ { applicationProtocols := plaintextHTTPALPNs
      protocol := .http
      transportProtocol := RawBufferTransportProtocol },
    { protocol := .tcp
      transportProtocol := RawBufferTransportProtocol } ]

/-- `inboundPlainTextTCPFilterChainMatchOptions`. -/
def inboundPlainTextTCPFilterChainMatchOptions : List FilterChainMatchOptions :=
  [ { protocol := .tcp
      transportProtocol := RawBufferTransportProtocol } ]

/-- `inboundPlainTextHTTPFilterChainMatchOptions`. -/
def inboundPlainTextHTTPFilterChainMatchOptions : List FilterChainMatchOptions :=
  [ { protocol := .http
      transportProtocol := RawBufferTransportProtocol } ]

/-- `getFilterChainMatchOptions` returns the FilterChainMatchOptions that
should be used based on mTLS mode and protocol. The Go `switch` falls through
to the TCP tables for every protocol other than HTTP and Auto, and to the
plain-text tables for every mode other than Strict and Permissive. -/
def getFilterChainMatchOptions (settings : MTLSSettings) (protocol : ListenerProtocol) :
    List FilterChainMatchOptions :=
  match protocol with
  | .http =>
    match settings.mode with
    | .strict => inboundStrictHTTPFilterChainMatchOptions
    | .permissive => inboundPermissiveHTTPFilterChainMatchWithMxcOptions
    | _ => inboundPlainTextHTTPFilterChainMatchOptions
  | .auto =>
    match settings.mode with
    | .strict => inboundStrictFilterChainMatchOptions
    | .permissive => inboundPermissiveFilterChainMatchWithMxcOptions
    | _ => inboundPlainTextFilterChainMatchOptions
  | _ =>
    match settings.mode with
    | .strict => inboundStrictTCPFilterChainMatchOptions
    | .permissive => inboundPermissiveTCPFilterChainMatchWithMxcOptions
    | _ => inboundPlainTextTCPFilterChainMatchOptions

/-! ## `getResourceVersion` (debug handlers) -/

/-- `VersionLen`: the config version is used as the nonce prefix; it is a
base64 encoding of a 64 bit array, always 12 characters in length. -/
def VersionLen : Nat := 12

/-- `DiscoveryServer.getResourceVersion`. The ledger collaborator
(`s.Env.GetLedger().GetPreviousValue`) is a parameter returning `none` on
error (the Go code logs the error and uses the empty string), and the
memoization map is an association list threaded through the result. -/
def getResourceVersion (ledger : String → String → Option String)
    (nonce key : String) (cache : List (String × String)) :
    String × List (String × String) :=
  if nonce.length < VersionLen then ("", cache)
  else
    let configVersion := String.mk (nonce.data.take VersionLen)
    match cache.lookup configVersion with
    | some result => (result, cache)
    | none =>
      let lookupResult := (ledger configVersion key).getD ""
      (lookupResult, (configVersion, lookupResult) :: cache)

/-! ## Push Queue flow control and ACK/NACK state machine

The engine implementation (the xDS server's request handling and flow
control) is not part of the repository excerpt; only its tests in
`pilot/pkg/xds/ads_test.go` are. The definitions below are therefore
modelled from the specification (sections 3, 4.3 and 4.4). -/

/-- Modelled from the spec: per-(connection, resource type) WatchState
(spec section 3): subscribed resource names (`none` = no prior watch for the
type), last-sent nonce, last-acked nonce and version, the pending
(sent, not yet acked-or-nacked) flag, and whether a coalesced push job is
deferred while pending. Nonces and versions are drawn from a counter, so they
are modelled as naturals (`none` models the empty nonce). -/
structure WatchState where
  subscribed : Option (List String)
  nonceSent : Option Nat
  nonceAcked : Option Nat
  versionAcked : Option Nat
  pending : Bool
  queued : Bool
deriving DecidableEq, Repr

/-- Modelled from the spec: the state the engine keeps for one connection and
one resource type, together with the counter used to generate fresh
unique-per-send nonces (spec section 3, Version/Nonce). -/
structure ConnState where
  watch : WatchState
  nonceCounter : Nat
deriving DecidableEq, Repr

/-- Inbound DiscoveryRequest, restricted to the fields the ACK/NACK state
machine disambiguates on (spec sections 4.4 and 6): resource names, response
nonce, version info and whether an error detail is present. -/
structure DiscoveryRequest where
  resourceNames : List String
  responseNonce : Option Nat
  versionInfo : Option Nat
  hasErrorDetail : Bool
deriving DecidableEq, Repr

/-- Outcome of processing one inbound request: whether a DiscoveryResponse is
sent, and whether the connection is closed. -/
structure ReqOutcome where
  respond : Bool
  closeConn : Bool
deriving DecidableEq, Repr

/-- Two resource-name lists describe the same subscription set (order and
duplication do not matter). -/
def sameNames (a b : List String) : Bool :=
  a.all (fun x => b.contains x) && b.all (fun x => a.contains x)

/-- Modelled from the spec: sending one DiscoveryResponse for the current
state (spec section 4.3, IDLE + new push job, and section 4.4 responses):
the subscription is set to `sub`, a fresh nonce is generated and recorded as
last sent, the pair enters PENDING, and any deferred job is subsumed by this
send of the latest state. -/
def sendResponse (s : ConnState) (sub : List String) : ConnState :=
  let n := s.nonceCounter + 1
  { watch := { s.watch with
      subscribed := some sub
      nonceSent := some n
      pending := true
      queued := false }
    nonceCounter := n }

/-- Modelled from the spec: section 4.3 Push Queue. A push job arrives for
this (connection, resource type). A type with no watch is not pushed. When
flow control is enabled and a push is already PENDING, the job is coalesced
(only the latest job is retained, deferred until the PENDING clears) and
nothing is sent; otherwise the job is sent immediately, recording a fresh
nonce and entering PENDING. When flow control is disabled every job is sent
immediately regardless of pending ACKs. Returns the new state and whether a
response was sent. -/
def handlePush (flowControl : Bool) (s : ConnState) : ConnState × Bool :=
  match s.watch.subscribed with
  | none => (s, false)
  | some sub =>
    if flowControl && s.watch.pending then
      ({ s with watch := { s.watch with queued := true } }, false)
    else
      (sendResponse s sub, true)

/-- Modelled from the spec: section 4.4 ACK/NACK state machine, with the flow
control interactions of section 4.3. Each inbound request is disambiguated
using only (nonce, resource-names, error-detail):
* error detail present → NACK: recorded, does not update last-acked state,
  clears PENDING for the outstanding nonce, never closes the connection,
  no response;
* resource names became empty after being non-empty → unsubscribe: stop
  tracking the type, no response;
* empty nonce or no prior watch → fresh subscription: always respond;
* nonce differs from last-sent → stale request: no response if the resource
  names are unchanged, respond if they changed (resource-change wins);
* nonce equals last-sent → ACK: record acked version/nonce and clear
  PENDING; respond only if the resource names changed or a coalesced
  deferred job was waiting (which is then sent immediately). -/
def handleRequest (s : ConnState) (req : DiscoveryRequest) : ConnState × ReqOutcome :=
  if req.hasErrorDetail then
    if req.responseNonce = s.watch.nonceSent then
      ({ s with watch := { s.watch with pending := false } },
       { respond := false, closeConn := false })
    else
      (s, { respond := false, closeConn := false })
  else
    match s.watch.subscribed with
    | none =>
      (sendResponse s req.resourceNames, { respond := true, closeConn := false })
    | some prev =>
      if prev ≠ [] ∧ req.resourceNames = [] then
        ({ s with watch := { s.watch with subscribed := none, pending := false, queued := false } },
         { respond := false, closeConn := false })
      else if req.responseNonce = none then
        (sendResponse s req.resourceNames, { respond := true, closeConn := false })
      else if req.responseNonce ≠ s.watch.nonceSent then
        if sameNames prev req.resourceNames then
          (s, { respond := false, closeConn := false })
        else
          (sendResponse s req.resourceNames, { respond := true, closeConn := false })
      else
        let acked : ConnState :=
          { s with watch := { s.watch with
              nonceAcked := req.responseNonce
              versionAcked := req.versionInfo
              pending := false } }
        if sameNames prev req.resourceNames then
          if s.watch.queued then
            (sendResponse acked req.resourceNames, { respond := true, closeConn := false })
          else
            (acked, { respond := false, closeConn := false })
        else
          (sendResponse acked req.resourceNames, { respond := true, closeConn := false })

/-! ## Push Orchestrator

Modelled from the spec (section 4.2): for a configuration change the
orchestrator decides which connections are pushed and which resource types
are impacted. -/

/-- The xDS resource types the orchestrator fans out to. -/
inductive XdsType where
  | listener
  | route
  | cluster
  | endpoint
deriving DecidableEq, Repr

/-- Config kinds appearing in change events (spec section 4.2 step 3). -/
inductive ConfigKind where
  | serviceEntry
  | virtualService
  | destinationRule
  | sidecar
deriving DecidableEq, Repr

/-- Change-event kinds. -/
inductive EventKind where
  | add
  | update
  | delete
deriving DecidableEq, Repr

/-- Modelled from the spec: a ConfigKey entry of a PushRequest
(kind, name, namespace) (spec section 3, PushRequest). -/
structure ConfigKey where
  kind : ConfigKind
  name : String
  ns : String
deriving DecidableEq, Repr

/-- Modelled from the spec: one changed config item: its key, the event kind,
and whether the item is a delegate route (a route referenced by another
route, spec section 4.2 step 3 and its edge case). -/
structure ConfigChange where
  key : ConfigKey
  event : EventKind
  isDelegate : Bool
deriving DecidableEq, Repr

/-- Modelled from the spec: a PushRequest: full push or scoped to a set of
changed config items (spec sections 3 and 6). -/
structure PushRequest where
  full : Bool
  configsUpdated : List ConfigChange
deriving DecidableEq, Repr

/-- Modelled from the spec: a candidate connection's effective Sidecar/egress
scope, as the set of (name, namespace) pairs of the configuration relevant to
it (spec section 4.2 step 2). -/
structure ScopedConnection where
  scope : List (String × String)
deriving DecidableEq, Repr

/-- A changed config key intersects the connection's effective scope
(by name and namespace). -/
def inScope (conn : ScopedConnection) (k : ConfigKey) : Bool :=
  conn.scope.contains (k.name, k.ns)

/-- Modelled from the spec: the fixed subset of resource types a changed
config item maps to (spec section 4.2 step 3 and edge case): an UPDATE on a
delegate resource is treated conservatively as touching Listener, Route and
Cluster; service/endpoint changes imply Listener/Cluster/Endpoint; routing
changes imply Listener/Route; destination-rule changes imply Cluster;
Sidecar changes imply Listener/Route/Cluster. -/
def impactedTypes (c : ConfigChange) : List XdsType :=
  if c.isDelegate && c.event = EventKind.update then
    [.listener, .route, .cluster]
  else
    match c.key.kind with
    | .serviceEntry => [.listener, .cluster, .endpoint]
    | .virtualService => [.listener, .route]
    | .destinationRule => [.cluster]
    | .sidecar => [.listener, .route, .cluster]

/-- Modelled from the spec: transitive inclusion of the Endpoint type when
the Cluster type is impacted, because cluster membership depends on
destination policy (spec section 4.2 step 3). -/
def addTransitiveTypes (l : List XdsType) : List XdsType :=
  if XdsType.cluster ∈ l ∧ XdsType.endpoint ∉ l then l ++ [.endpoint] else l

/-- Modelled from the spec: section 4.2 Push Orchestrator, restricted to one
candidate connection: a full push makes every connection a candidate for
every resource type; a scoped change pushes to the connection only if some
changed key intersects its effective scope, and then only the impacted
resource types (with transitive inclusion); a connection whose scope includes
no changed key is skipped entirely, producing zero push jobs. -/
def pushJobsFor (req : PushRequest) (conn : ScopedConnection) : List XdsType :=
  if req.full then
    [.listener, .route, .cluster, .endpoint]
  else if req.configsUpdated.any (fun c => inScope conn c.key) then
    addTransitiveTypes (req.configsUpdated.foldr (fun c acc => impactedTypes c ++ acc) [])
  else
    []

/-! ## Helper lemmas -/

theorem sameNames_self (l : List String) : sameNames l l = true := by
  simp only [sameNames, List.all_eq_true, Bool.and_eq_true]
  exact ⟨fun x hx => List.elem_iff.mpr hx, fun x hx => List.elem_iff.mpr hx⟩

theorem not_unsub_cond_self (l : List String) : ¬(l ≠ [] ∧ l = []) := by
  rintro ⟨h1, h2⟩
  exact h1 h2

theorem mem_foldr_impactedTypes {c : ConfigChange} {cs : List ConfigChange} {x : XdsType}
    (hc : c ∈ cs) (hx : x ∈ impactedTypes c) :
    x ∈ cs.foldr (fun d acc => impactedTypes d ++ acc) [] := by
  induction cs with
  | nil => cases hc
  | cons hd tl ih =>
    rcases List.mem_cons.mp hc with hc | hc
    · subst hc
      exact List.mem_append.mpr (Or.inl hx)
    · exact List.mem_append.mpr (Or.inr (ih hc))

theorem mem_addTransitiveTypes_of_mem {l : List XdsType} {x : XdsType} (h : x ∈ l) :
    x ∈ addTransitiveTypes l := by
  unfold addTransitiveTypes
  split
  · exact List.mem_append.mpr (Or.inl h)
  · exact h

theorem endpoint_mem_addTransitiveTypes {l : List XdsType} (h : XdsType.cluster ∈ l) :
    XdsType.endpoint ∈ addTransitiveTypes l := by
  unfold addTransitiveTypes
  split
  · exact List.mem_append.mpr (Or.inr (List.mem_singleton.mpr rfl))
  · rename_i hneg
    rcases Decidable.not_and_iff_or_not.mp hneg with hc | he
    · exact absurd h hc
    · exact Decidable.not_not.mp he

/-! ## Claims -/

/-- C1: when flow control is enabled, at most one push per
(connection, resource type) is outstanding: a push job arriving while one is
PENDING is not sent immediately (no response, no new sent nonce), is retained
as the coalesced deferred job rather than dropped, and goes out once the
outstanding push clears (here by an ACK of the outstanding nonce). -/
theorem c1_pending_push_deferred (s : ConnState) (l : List String) (n : Nat)
    (hsub : s.watch.subscribed = some l) (hp : s.watch.pending = true)
    (hn : s.watch.nonceSent = some n) :
    (handlePush true s).snd = false
    ∧ (handlePush true s).fst.watch.nonceSent = s.watch.nonceSent
    ∧ (handlePush true s).fst.watch.queued = true
    ∧ (handleRequest (handlePush true s).fst
        { resourceNames := l, responseNonce := some n, versionInfo := none,
          hasErrorDetail := false }).snd.respond = true := by
  have hdef : handlePush true s = ({ s with watch := { s.watch with queued := true } }, false) := by
    simp [handlePush, hsub, hp]
  refine ⟨by rw [hdef], by rw [hdef], by rw [hdef], ?_⟩
  rw [hdef]
  simp [handleRequest, hsub, hn, sameNames_self, not_unsub_cond_self]

/-- Witness for C1 at a concrete PENDING state. -/
theorem c1_pending_push_deferred_witness :
    (handlePush true ⟨⟨some ["a"], some 3, none, none, true, false⟩, 3⟩).snd = false
    ∧ (handlePush true ⟨⟨some ["a"], some 3, none, none, true, false⟩, 3⟩).fst.watch.nonceSent
        = (⟨⟨some ["a"], some 3, none, none, true, false⟩, 3⟩ : ConnState).watch.nonceSent
    ∧ (handlePush true ⟨⟨some ["a"], some 3, none, none, true, false⟩, 3⟩).fst.watch.queued = true
    ∧ (handleRequest (handlePush true ⟨⟨some ["a"], some 3, none, none, true, false⟩, 3⟩).fst
        { resourceNames := ["a"], responseNonce := some 3, versionInfo := none,
          hasErrorDetail := false }).snd.respond = true :=
  c1_pending_push_deferred ⟨⟨some ["a"], some 3, none, none, true, false⟩, 3⟩ ["a"] 3 rfl rfl rfl

/-- C2: while PENDING, a NACK (request carrying the outstanding nonce together
with an error detail) clears PENDING so that a subsequent push is sent, leaves
the last-acked nonce and version unchanged, and does not close the
connection. -/
theorem c2_nack_unblocks (s : ConnState) (l rn : List String) (n : Nat) (vi : Option Nat)
    (hsub : s.watch.subscribed = some l) (hn : s.watch.nonceSent = some n)
    (hp : s.watch.pending = true) :
    (handleRequest s
        { resourceNames := rn, responseNonce := some n,
          versionInfo := vi, hasErrorDetail := true }).fst.watch.pending = false
    ∧ (handleRequest s
        { resourceNames := rn, responseNonce := some n,
          versionInfo := vi, hasErrorDetail := true }).fst.watch.nonceAcked = s.watch.nonceAcked
    ∧ (handleRequest s
        { resourceNames := rn, responseNonce := some n,
          versionInfo := vi, hasErrorDetail := true }).fst.watch.versionAcked
        = s.watch.versionAcked
    ∧ (handleRequest s
        { resourceNames := rn, responseNonce := some n,
          versionInfo := vi, hasErrorDetail := true }).snd.closeConn = false
    ∧ (handlePush true (handleRequest s
        { resourceNames := rn, responseNonce := some n,
          versionInfo := vi, hasErrorDetail := true }).fst).snd = true := by
  have hdef : handleRequest s
      { resourceNames := rn, responseNonce := some n,
        versionInfo := vi, hasErrorDetail := true }
      = ({ s with watch := { s.watch with pending := false } },
         { respond := false, closeConn := false }) := by
    simp [handleRequest, hn]
  rw [hdef]
  refine ⟨rfl, rfl, rfl, rfl, ?_⟩
  simp [handlePush, hsub]

/-- Witness for C2 at a concrete PENDING state. -/
theorem c2_nack_unblocks_witness :
    (handleRequest ⟨⟨some ["a"], some 3, some 2, some 1, true, false⟩, 3⟩
        { resourceNames := [], responseNonce := some 3,
          versionInfo := some 9, hasErrorDetail := true }).fst.watch.pending = false
    ∧ (handleRequest ⟨⟨some ["a"], some 3, some 2, some 1, true, false⟩, 3⟩
        { resourceNames := [], responseNonce := some 3,
          versionInfo := some 9, hasErrorDetail := true }).fst.watch.nonceAcked
        = (⟨⟨some ["a"], some 3, some 2, some 1, true, false⟩, 3⟩ : ConnState).watch.nonceAcked
    ∧ (handleRequest ⟨⟨some ["a"], some 3, some 2, some 1, true, false⟩, 3⟩
        { resourceNames := [], responseNonce := some 3,
          versionInfo := some 9, hasErrorDetail := true }).fst.watch.versionAcked
        = (⟨⟨some ["a"], some 3, some 2, some 1, true, false⟩, 3⟩ : ConnState).watch.versionAcked
    ∧ (handleRequest ⟨⟨some ["a"], some 3, some 2, some 1, true, false⟩, 3⟩
        { resourceNames := [], responseNonce := some 3,
          versionInfo := some 9, hasErrorDetail := true }).snd.closeConn = false
    ∧ (handlePush true (handleRequest ⟨⟨some ["a"], some 3, some 2, some 1, true, false⟩, 3⟩
        { resourceNames := [], responseNonce := some 3,
          versionInfo := some 9, hasErrorDetail := true }).fst).snd = true :=
  c2_nack_unblocks ⟨⟨some ["a"], some 3, some 2, some 1, true, false⟩, 3⟩ ["a"] [] 3 (some 9)
    rfl rfl rfl

/-- C3: a request without error detail updates the last-acked version/nonce
only if its nonce equals the last-sent nonce for the pair; a request with a
stale (non-empty, mismatched) nonce and unchanged resource names is a no-op
producing no response. -/
theorem c3_stale_ack_noop (s : ConnState) (req : DiscoveryRequest)
    (hne : req.hasErrorDetail = false) :
    (((handleRequest s req).fst.watch.nonceAcked ≠ s.watch.nonceAcked
        ∨ (handleRequest s req).fst.watch.versionAcked ≠ s.watch.versionAcked)
      → req.responseNonce = s.watch.nonceSent)
    ∧ (∀ l, s.watch.subscribed = some l → req.resourceNames = l →
        req.responseNonce ≠ none → req.responseNonce ≠ s.watch.nonceSent →
        handleRequest s req = (s, { respond := false, closeConn := false })) := by
  constructor
  · by_cases heq : req.responseNonce = s.watch.nonceSent
    · exact fun _ => heq
    · intro hch
      exfalso
      have hunch : (handleRequest s req).fst.watch.nonceAcked = s.watch.nonceAcked
          ∧ (handleRequest s req).fst.watch.versionAcked = s.watch.versionAcked := by
        cases hsub : s.watch.subscribed with
        | none => simp [handleRequest, hne, hsub, sendResponse]
        | some prev =>
          simp only [handleRequest, hne, Bool.false_eq_true, if_false, hsub]
          split_ifs <;> simp_all [sendResponse]
      rcases hch with hch | hch
      · exact hch hunch.left
      · exact hch hunch.right
  · intro l hsub hnames hnn hneq
    have hcond : ¬(l ≠ [] ∧ req.resourceNames = []) := by
      rintro ⟨h1, h2⟩
      rw [hnames] at h2
      exact h1 h2
    simp [handleRequest, hne, hsub, hcond, hnn, hneq, hnames, sameNames_self]

/-- Witness for C3 at a concrete state and a stale-nonce request. -/
theorem c3_stale_ack_noop_witness :
    (((handleRequest ⟨⟨some ["a"], some 3, some 2, some 1, true, false⟩, 3⟩
          { resourceNames := ["a"], responseNonce := some 1, versionInfo := some 7,
            hasErrorDetail := false }).fst.watch.nonceAcked
        ≠ (⟨⟨some ["a"], some 3, some 2, some 1, true, false⟩, 3⟩ : ConnState).watch.nonceAcked
      ∨ (handleRequest ⟨⟨some ["a"], some 3, some 2, some 1, true, false⟩, 3⟩
          { resourceNames := ["a"], responseNonce := some 1, versionInfo := some 7,
            hasErrorDetail := false }).fst.watch.versionAcked
        ≠ (⟨⟨some ["a"], some 3, some 2, some 1, true, false⟩, 3⟩ : ConnState).watch.versionAcked)
      → (some 1 : Option Nat) = some 3)
    ∧ (∀ l, (some ["a"] : Option (List String)) = some l → ["a"] = l →
        (some 1 : Option Nat) ≠ none → (some 1 : Option Nat) ≠ some 3 →
        handleRequest ⟨⟨some ["a"], some 3, some 2, some 1, true, false⟩, 3⟩
          { resourceNames := ["a"], responseNonce := some 1, versionInfo := some 7,
            hasErrorDetail := false }
          = (⟨⟨some ["a"], some 3, some 2, some 1, true, false⟩, 3⟩,
             { respond := false, closeConn := false })) :=
  c3_stale_ack_noop ⟨⟨some ["a"], some 3, some 2, some 1, true, false⟩, 3⟩
    { resourceNames := ["a"], responseNonce := some 1, versionInfo := some 7,
      hasErrorDetail := false } rfl

/-- C4: a request without error detail that changes the requested resource
names (relative to the current subscription) to a non-empty set always gets a
response, regardless of the pending flag, of a stale nonce, and without an
explicit ACK of the outstanding nonce. -/
theorem c4_resource_change_responds (s : ConnState) (req : DiscoveryRequest)
    (l : List String) (hsub : s.watch.subscribed = some l)
    (hne : req.hasErrorDetail = false)
    (hch : sameNames l req.resourceNames = false)
    (hnonempty : req.resourceNames ≠ []) :
    (handleRequest s req).snd.respond = true := by
  have hcond : ¬(l ≠ [] ∧ req.resourceNames = []) := by
    rintro ⟨_, h2⟩
    exact hnonempty h2
  simp only [handleRequest, hne, Bool.false_eq_true, if_false, hsub]
  split_ifs <;> simp_all

/-- Witness for C4: a blocked (PENDING) state with a stale request nonce still
gets a response when the resource names change. -/
theorem c4_resource_change_responds_witness :
    (handleRequest ⟨⟨some ["a"], some 3, some 2, some 1, true, false⟩, 3⟩
        { resourceNames := ["foo", "bar"], responseNonce := some 1, versionInfo := some 7,
          hasErrorDetail := false }).snd.respond = true :=
  c4_resource_change_responds ⟨⟨some ["a"], some 3, some 2, some 1, true, false⟩, 3⟩
    { resourceNames := ["foo", "bar"], responseNonce := some 1, versionInfo := some 7,
      hasErrorDetail := false } ["a"] rfl rfl rfl (by decide)

/-- C5: a request whose resource names become empty after a non-empty
subscription, with an up-to-date nonce and no error detail, is an
unsubscribe: no response is produced, the watch is dropped, and no further
push is sent for the type until the proxy re-subscribes. -/
theorem c5_unsubscribe_no_response (s : ConnState) (l : List String) (vi : Option Nat)
    (fc : Bool) (hsub : s.watch.subscribed = some l) (hnonempty : l ≠ []) :
    (handleRequest s
        { resourceNames := [], responseNonce := s.watch.nonceSent,
          versionInfo := vi, hasErrorDetail := false }).snd.respond = false
    ∧ (handleRequest s
        { resourceNames := [], responseNonce := s.watch.nonceSent,
          versionInfo := vi, hasErrorDetail := false }).fst.watch.subscribed = none
    ∧ (handlePush fc (handleRequest s
        { resourceNames := [], responseNonce := s.watch.nonceSent,
          versionInfo := vi, hasErrorDetail := false }).fst).snd = false := by
  have hdef : handleRequest s
      { resourceNames := [], responseNonce := s.watch.nonceSent,
        versionInfo := vi, hasErrorDetail := false }
      = ({ s with watch :=
            { s.watch with subscribed := none, pending := false, queued := false } },
         { respond := false, closeConn := false }) := by
    simp [handleRequest, hsub, hnonempty]
  rw [hdef]
  exact ⟨rfl, rfl, by simp [handlePush]⟩

/-- Witness for C5 at a concrete subscribed state. -/
theorem c5_unsubscribe_no_response_witness :
    (handleRequest ⟨⟨some ["fake-cluster"], some 3, some 3, some 1, false, false⟩, 3⟩
        { resourceNames := [],
          responseNonce := (⟨⟨some ["fake-cluster"], some 3, some 3, some 1, false, false⟩,
            3⟩ : ConnState).watch.nonceSent,
          versionInfo := some 1, hasErrorDetail := false }).snd.respond = false
    ∧ (handleRequest ⟨⟨some ["fake-cluster"], some 3, some 3, some 1, false, false⟩, 3⟩
        { resourceNames := [],
          responseNonce := (⟨⟨some ["fake-cluster"], some 3, some 3, some 1, false, false⟩,
            3⟩ : ConnState).watch.nonceSent,
          versionInfo := some 1, hasErrorDetail := false }).fst.watch.subscribed = none
    ∧ (handlePush true (handleRequest
        ⟨⟨some ["fake-cluster"], some 3, some 3, some 1, false, false⟩, 3⟩
        { resourceNames := [],
          responseNonce := (⟨⟨some ["fake-cluster"], some 3, some 3, some 1, false, false⟩,
            3⟩ : ConnState).watch.nonceSent,
          versionInfo := some 1, hasErrorDetail := false }).fst).snd = false :=
  c5_unsubscribe_no_response ⟨⟨some ["fake-cluster"], some 3, some 3, some 1, false, false⟩, 3⟩
    ["fake-cluster"] (some 1) true rfl (by decide)

/-- C6: a scoped (non-full) configuration change none of whose changed keys
intersects a connection's effective scope produces zero push jobs for that
connection: no resource type is recomputed or sent to it. -/
theorem c6_scoped_pruning (req : PushRequest) (conn : ScopedConnection)
    (hfull : req.full = false)
    (hscope : ∀ c ∈ req.configsUpdated, inScope conn c.key = false) :
    pushJobsFor req conn = [] := by
  have hany : req.configsUpdated.any (fun c => inScope conn c.key) = false := by
    rw [List.any_eq_false]
    intro c hc
    simp [hscope c hc]
  simp [pushJobsFor, hfull, hany]

/-- Witness for C6: a change in another namespace produces no push jobs. -/
theorem c6_scoped_pruning_witness :
    pushJobsFor ⟨false, [⟨⟨.serviceEntry, "svc11", "ns1"⟩, .add, false⟩]⟩
      ⟨[("svc1", "default"), ("svc2", "default")]⟩ = [] :=
  c6_scoped_pruning ⟨false, [⟨⟨.serviceEntry, "svc11", "ns1"⟩, .add, false⟩]⟩
    ⟨[("svc1", "default"), ("svc2", "default")]⟩ rfl (by decide)

/-- C7: an UPDATE event on a delegate virtual service triggers, for every
connection whose scope it intersects, pushes of the Listener, Route and
Cluster resource types and transitively the Endpoint type: never a narrower
set. -/
theorem c7_delegate_update_types (req : PushRequest) (conn : ScopedConnection)
    (c : ConfigChange) (hmem : c ∈ req.configsUpdated)
    (hdel : c.isDelegate = true) (hev : c.event = EventKind.update)
    (hin : inScope conn c.key = true) :
    XdsType.listener ∈ pushJobsFor req conn
    ∧ XdsType.route ∈ pushJobsFor req conn
    ∧ XdsType.cluster ∈ pushJobsFor req conn
    ∧ XdsType.endpoint ∈ pushJobsFor req conn := by
  by_cases hf : req.full
  · simp [pushJobsFor, hf]
  · have hany : req.configsUpdated.any (fun c => inScope conn c.key) = true :=
      List.any_eq_true.mpr ⟨c, hmem, hin⟩
    have himp : impactedTypes c = [.listener, .route, .cluster] := by
      simp [impactedTypes, hdel, hev]
    have hjobs : pushJobsFor req conn
        = addTransitiveTypes
            (req.configsUpdated.foldr (fun d acc => impactedTypes d ++ acc) []) := by
      simp [pushJobsFor, hf, hany]
    have hmemL : XdsType.listener ∈ impactedTypes c := by rw [himp]; simp
    have hmemR : XdsType.route ∈ impactedTypes c := by rw [himp]; simp
    have hmemC : XdsType.cluster ∈ impactedTypes c := by rw [himp]; simp
    rw [hjobs]
    exact ⟨mem_addTransitiveTypes_of_mem (mem_foldr_impactedTypes hmem hmemL),
      mem_addTransitiveTypes_of_mem (mem_foldr_impactedTypes hmem hmemR),
      mem_addTransitiveTypes_of_mem (mem_foldr_impactedTypes hmem hmemC),
      endpoint_mem_addTransitiveTypes (mem_foldr_impactedTypes hmem hmemC)⟩

/-- Witness for C7 at a concrete delegate-route update in scope. -/
theorem c7_delegate_update_types_witness :
    XdsType.listener ∈ pushJobsFor
        ⟨false, [⟨⟨.virtualService, "delegatevs4", "default"⟩, .update, true⟩]⟩
        ⟨[("delegatevs4", "default")]⟩
    ∧ XdsType.route ∈ pushJobsFor
        ⟨false, [⟨⟨.virtualService, "delegatevs4", "default"⟩, .update, true⟩]⟩
        ⟨[("delegatevs4", "default")]⟩
    ∧ XdsType.cluster ∈ pushJobsFor
        ⟨false, [⟨⟨.virtualService, "delegatevs4", "default"⟩, .update, true⟩]⟩
        ⟨[("delegatevs4", "default")]⟩
    ∧ XdsType.endpoint ∈ pushJobsFor
        ⟨false, [⟨⟨.virtualService, "delegatevs4", "default"⟩, .update, true⟩]⟩
        ⟨[("delegatevs4", "default")]⟩ :=
  c7_delegate_update_types
    ⟨false, [⟨⟨.virtualService, "delegatevs4", "default"⟩, .update, true⟩]⟩
    ⟨[("delegatevs4", "default")]⟩
    ⟨⟨.virtualService, "delegatevs4", "default"⟩, .update, true⟩
    (by decide) rfl rfl (by decide)

/-- C8: when flow control is disabled every push job is sent immediately even
with an un-ACKed previous response: two consecutive pushes without an
intervening ACK each produce a response, and a later ACK of the old (first)
nonce produces no response. -/
theorem c8_no_flow_control (s : ConnState) (l : List String)
    (hsub : s.watch.subscribed = some l) :
    (handlePush false s).snd = true
    ∧ (handlePush false (handlePush false s).fst).snd = true
    ∧ (handleRequest (handlePush false (handlePush false s).fst).fst
        { resourceNames := l, responseNonce := (handlePush false s).fst.watch.nonceSent,
          versionInfo := none, hasErrorDetail := false }).snd.respond = false := by
  have h1 : handlePush false s = (sendResponse s l, true) := by
    simp [handlePush, hsub]
  have h2 : handlePush false (sendResponse s l) = (sendResponse (sendResponse s l) l, true) := by
    simp [handlePush, sendResponse]
  have hcond : ¬(l ≠ [] ∧ l = []) := not_unsub_cond_self l
  have hneq : (some (s.nonceCounter + 1) : Option Nat) ≠ some (s.nonceCounter + 1 + 1) := by
    simp
  rw [h1]
  refine ⟨rfl, by rw [h2], ?_⟩
  rw [h2]
  simp [handleRequest, sendResponse, hcond, hneq, sameNames_self]

/-- Witness for C8 at a concrete subscribed state. -/
theorem c8_no_flow_control_witness :
    (handlePush false ⟨⟨some ["a"], some 3, some 3, some 1, false, false⟩, 3⟩).snd = true
    ∧ (handlePush false
        (handlePush false ⟨⟨some ["a"], some 3, some 3, some 1, false, false⟩, 3⟩).fst).snd
        = true
    ∧ (handleRequest (handlePush false
          (handlePush false ⟨⟨some ["a"], some 3, some 3, some 1, false, false⟩, 3⟩).fst).fst
        { resourceNames := ["a"],
          responseNonce := (handlePush false
            ⟨⟨some ["a"], some 3, some 3, some 1, false, false⟩, 3⟩).fst.watch.nonceSent,
          versionInfo := none, hasErrorDetail := false }).snd.respond = false :=
  c8_no_flow_control ⟨⟨some ["a"], some 3, some 3, some 1, false, false⟩, 3⟩ ["a"] rfl

/-- C9: `getResourceVersion` extracts the PushContext version from a nonce by
taking exactly its first 12 characters as the key for the ledger lookup, and
returns the empty string (leaving the memoization cache unchanged) for every
nonce shorter than 12 characters. -/
theorem c9_getResourceVersion_prefix_lookup (ledger : String → String → Option String)
    (nonce key : String) (cache : List (String × String)) :
    (nonce.length < VersionLen → getResourceVersion ledger nonce key cache = ("", cache))
    ∧ (VersionLen ≤ nonce.length →
        cache.lookup (String.mk (nonce.data.take VersionLen)) = none →
        (getResourceVersion ledger nonce key cache).fst
          = (ledger (String.mk (nonce.data.take VersionLen)) key).getD "") := by
  constructor
  · intro h
    simp [getResourceVersion, h]
  · intro h hcache
    simp [getResourceVersion, Nat.not_lt.mpr h, hcache]

/-- Witness for C9: a 2-character nonce yields the empty string; a
15-character nonce queries the ledger with exactly its first 12 characters. -/
theorem c9_getResourceVersion_prefix_lookup_witness :
    getResourceVersion (fun v k => some (v ++ k)) "ab" "K" [] = ("", [])
    ∧ (getResourceVersion (fun v k => some (v ++ k)) "AAAAAAAAAAAAxyz" "K" []).fst
        = ((fun (v k : String) => some (v ++ k))
            (String.mk ("AAAAAAAAAAAAxyz".data.take VersionLen)) "K").getD "" :=
  ⟨(c9_getResourceVersion_prefix_lookup (fun v k => some (v ++ k)) "ab" "K" []).left
      (by decide),
   (c9_getResourceVersion_prefix_lookup (fun v k => some (v ++ k)) "AAAAAAAAAAAAxyz" "K"
      []).right (by decide) rfl⟩

/-- C10: for every MTLSSettings in strict mode and every listener protocol,
`getFilterChainMatchOptions` returns a non-empty list all of whose entries
terminate mTLS and match the TLS transport protocol. -/
theorem c10_strict_mtls_chains (settings : MTLSSettings) (protocol : ListenerProtocol)
    (hmode : settings.mode = MutualTLSMode.strict) :
    getFilterChainMatchOptions settings protocol ≠ []
    ∧ ∀ opt ∈ getFilterChainMatchOptions settings protocol,
        opt.mtls = true ∧ opt.transportProtocol = TLSTransportProtocol := by
  obtain ⟨mode⟩ := settings
  cases hmode
  cases protocol <;> decide

/-- Witness for C10 at strict mode with the Auto protocol. -/
theorem c10_strict_mtls_chains_witness :
    getFilterChainMatchOptions ⟨MutualTLSMode.strict⟩ ListenerProtocol.auto ≠ []
    ∧ ∀ opt ∈ getFilterChainMatchOptions ⟨MutualTLSMode.strict⟩ ListenerProtocol.auto,
        opt.mtls = true ∧ opt.transportProtocol = TLSTransportProtocol :=
  c10_strict_mtls_chains ⟨MutualTLSMode.strict⟩ ListenerProtocol.auto rfl

end IstioXds
